import Mathlib

/-!
Verification development for the node-two-captcha-ts client library.

The TypeScript sources (src/Captcha.ts, src/TwoCaptchaClient.ts) are
shallow-embedded below.  JavaScript strings are modelled as Lean `String`
(or `List Char` for character-level parsing); a JavaScript value that may
be `undefined` at runtime is modelled as an `Option`, with `none` for
`undefined`.  Asynchronous effects are modelled by explicit state passing:
a call that may `throw` returns `Except String α` (the `error` branch
carries the thrown message), and `console.warn` output is collected in a
`List String` of warnings.
-/

/-- Model of JavaScript `s.split(sep)` on character lists.
`''.split(sep)` is `['']`, hence the base case `[[]]`. -/
def splitOnChar (sep : Char) : List Char → List (List Char)
  | [] => [[]]
  | c :: cs =>
    if c = sep then [] :: splitOnChar sep cs
    else
      match splitOnChar sep cs with
      | g :: gs => (c :: g) :: gs
      | [] => [[c]]

/-- Model of JavaScript `hay.includes(needle)`: substring containment. -/
def hasSubstr (needle : List Char) : List Char → Bool
  | [] => needle.isEmpty
  | c :: cs => needle.isPrefixOf (c :: cs) || hasSubstr needle cs

/-- Maximal-munch of a leading run of decimal digits, as a regex engine
matching `[0-9]+` greedily would consume them: returns the run and the
rest of the input. -/
def munchDigits : List Char → List Char × List Char
  | [] => ([], [])
  | c :: cs =>
    if c.isDigit then
      let p := munchDigits cs
      (c :: p.1, p.2)
    else ([], c :: cs)

/-- Model of JavaScript `Number(s)` on a string of decimal digits. -/
def digitsToNat (ds : List Char) : Nat :=
  ds.foldl (fun n c => 10 * n + (c.toNat - 48)) 0

/-- Model of JavaScript `s.replace(pat, '')` with a string pattern:
only the first occurrence of `pat` (anywhere in `s`) is removed. -/
def replaceFirstOcc (pat : List Char) : List Char → List Char
  | [] => []
  | c :: cs =>
    if pat.isPrefixOf (c :: cs) then (c :: cs).drop pat.length
    else c :: replaceFirstOcc pat cs

/-- Model of the regex scan for `/\d+/g` (src/Captcha.ts, `indexes`):
at a digit, the maximal run starting there is one match and scanning
resumes after it (the regex engine's lastIndex); at a non-digit the
scanner advances one character.  Each step consumes at least one input
character, so fuel equal to the input length is enough; the wrapper
below supplies exactly that. -/
def jsMatchDigitsGAux : Nat → List Char → List (List Char)
  | 0, _ => []
  | _, [] => []
  | n + 1, c :: cs =>
    if c.isDigit then
      (c :: (munchDigits cs).1) :: jsMatchDigitsGAux n (munchDigits cs).2
    else jsMatchDigitsGAux n cs

/-- `text.match(/\d+/g)`, with `null` collapsed to the empty list (the
source maps `null` to `[]` right away). -/
def jsMatchDigitsG (l : List Char) : List (List Char) :=
  jsMatchDigitsGAux l.length l

/-- The maximal runs of decimal digits of a character list, in order of
occurrence: a direct structural rendering of the specification's words,
independent of the regex-scanner model above. -/
def digitRunsSpec : List Char → List (List Char)
  | [] => []
  | [c] => if c.isDigit then [[c]] else []
  | c :: d :: cs =>
    if c.isDigit then
      if d.isDigit then
        match digitRunsSpec (d :: cs) with
        | g :: gs => (c :: g) :: gs
        | [] => [[c]]
      else [c] :: digitRunsSpec (d :: cs)
    else digitRunsSpec (d :: cs)

/-- A captcha as held by src/Captcha.ts.  The `id` and `text` fields can
be assigned `undefined` at runtime (see `TwoCaptchaClient.captcha` and
`TwoCaptchaClient._upload`, which assign the possibly-missing second
field of a split), so they are modelled as `Option String`. -/
structure Captcha where
  id : Option String
  text : Option String
  apiResponse : String
deriving DecidableEq

/-- The `Captcha` constructor: all three fields start as `''`. -/
def Captcha.new : Captcha :=
  { id := some "", text := some "", apiResponse := "" }

/-- `Captcha.indexes` for a string-valued `_text`:
`text.replace('click:', '').match(/\d+/g)` mapped over `Number`,
with `null` becoming `[]`. -/
def Captcha.indexes (text : String) : List Nat :=
  (jsMatchDigitsG (replaceFirstOcc "click:".toList text.toList)).map digitsToNat

/-- Attempt to match the regex `x=([0-9]+),y=([0-9]+)` at the very start
of the input, as `RegExp.exec` anchors a match attempt at one position:
literal `x=`, a maximal nonempty digit run, literal `,y=`, a maximal
nonempty digit run.  (Backtracking the greedy `[0-9]+` can never help:
a shorter run leaves a digit where `,` is required.)  On success returns
the two digit groups and the input remaining after the match.
`expectChar` consumes one expected literal character. -/
def expectChar (c : Char) : List Char → Option (List Char)
  | [] => none
  | d :: rest => if d = c then some rest else none

def tryCoordAt (l : List Char) : Option (List Char × List Char × List Char) := do
  let r1 ← expectChar 'x' l
  let r2 ← expectChar '=' r1
  let (ds, r3) := munchDigits r2
  if ds = [] then none else
  let r4 ← expectChar ',' r3
  let r5 ← expectChar 'y' r4
  let r6 ← expectChar '=' r5
  let (es, r7) := munchDigits r6
  if es = [] then none else
  some (ds, es, r7)

/-- First match of `/x=([0-9]+),y=([0-9]+)/` anywhere in the input
(`regex.exec(text)` in `coordinateParser`): try each start position from
the left.  Fuel bounds the number of start positions tried. -/
def execCoordAux : Nat → List Char → Option (List Char × List Char)
  | 0, _ => none
  | _, [] => none
  | n + 1, c :: cs =>
    match tryCoordAt (c :: cs) with
    | some (ds, es, _) => some (ds, es)
    | none => execCoordAux n cs

/-- The inner `coordinateParser` of `Captcha.coordinates`: re-runs the
coordinate regex on a string and returns `[Number(m[1]), Number(m[2])]`,
or `[]` when there is no match. -/
def coordinateParser (m : List Char) : List Nat :=
  match execCoordAux m.length m with
  | some (ds, es) => [digitsToNat ds, digitsToNat es]
  | none => []

/-- The global scan `text.match(/x=([0-9]+),y=([0-9]+)/g)`: the list of
matched substrings, left to right; after a match the scan resumes where
the match ended, after a failed position it advances one character.
Each step consumes at least one character, so fuel equal to the input
length suffices (supplied by the wrapper below). -/
def jsMatchCoordsGAux : Nat → List Char → List (List Char)
  | 0, _ => []
  | _, [] => []
  | n + 1, c :: cs =>
    match tryCoordAt (c :: cs) with
    | some (ds, es, rest) =>
      ('x' :: '=' :: (ds ++ ',' :: 'y' :: '=' :: es)) :: jsMatchCoordsGAux n rest
    | none => jsMatchCoordsGAux n cs

/-- `Captcha.coordinates` for a string-valued `_text`: the matched
substrings of the global coordinate regex, each re-parsed by
`coordinateParser`; `null` becomes `[]`. -/
def Captcha.coordinates (text : String) : List (List Nat) :=
  (jsMatchCoordsGAux text.toList.length text.toList).map coordinateParser

/-- The specification's reading of `coordinates`: one `(x, y)` pair of
numbers per occurrence of `x=<digits>,y=<digits>`, in order of
occurrence, each component the number read from the respective digit
group.  Same scan discipline, but the pairs are produced directly. -/
def coordOccurrencesAux : Nat → List Char → List (Nat × Nat)
  | 0, _ => []
  | _, [] => []
  | n + 1, c :: cs =>
    match tryCoordAt (c :: cs) with
    | some (ds, es, rest) => (digitsToNat ds, digitsToNat es) :: coordOccurrencesAux n rest
    | none => coordOccurrencesAux n cs

/-- The coordinate occurrences of a text, per the specification. -/
def coordOccurrences (text : String) : List (Nat × Nat) :=
  coordOccurrencesAux text.toList.length text.toList

/-- Client state, as set up by the `TwoCaptchaClient` constructor
(src/TwoCaptchaClient.ts, lines 8-34). -/
structure TwoCaptchaClient where
  key : String
  timeout : Nat
  polling : Nat
  throwErrors : Bool
deriving DecidableEq

/-- The optional constructor parameter object; a `none` field models an
absent property, for which the destructuring default applies. -/
structure ClientOptions where
  timeout : Option Nat := none
  polling : Option Nat := none
  throwErrors : Option Bool := none

/-- The `TwoCaptchaClient` constructor: destructuring defaults are
`timeout = 60000`, `polling = 5000`, `throwErrors = false`.  (The
runtime `typeof key` check cannot fire for a string-typed key and does
not alter the constructed state.) -/
def TwoCaptchaClient.make (key : String) (opts : ClientOptions) : TwoCaptchaClient :=
  { key := key
    timeout := opts.timeout.getD 60000
    polling := opts.polling.getD 5000
    throwErrors := opts.throwErrors.getD false }

/-- The message `_throwError` lets pass silently
(src/TwoCaptchaClient.ts, line 330). -/
def notSolvedMsg : String := "Your captcha is not solved yet."

/-- `TwoCaptchaClient._throwError` (src/TwoCaptchaClient.ts, lines
329-337).  `Except.error m` models `throw new Error(m)`; `Except.ok (ws, b)`
models a normal return of `b` after logging the warnings `ws` to the
console.  The message equal to `notSolvedMsg` returns `false` before the
mode is even consulted, with no throw and no warning. -/
def throwErrorM (throwErrors : Bool) (message : String) :
    Except String (List String × Bool) :=
  if message = notSolvedMsg then .ok ([], false)
  else if throwErrors then .error message
  else .ok ([message], false)

/-- Modelled from the spec: the static error-code-to-message table of
`constants.errors` (the `constants.js` module is not among the provided
sources; the spec describes it as "a static error-code table" of
"error-code-to-message" data).  It is kept abstract as an association
list from response bodies to messages; `lookupTable` models the
JavaScript computed property access `const { [body]: error } = errors`. -/
def lookupTable (errors : List (String × String)) (body : String) : Option String :=
  match errors with
  | [] => none
  | (k, v) :: rest => if body = k then some v else lookupTable rest body

/-- The message `_validateResponse` would pass to `_throwError` for a
given body, or `none` when the body is accepted
(src/TwoCaptchaClient.ts, lines 408-422): a non-empty table message
wins; otherwise an empty body or a body containing `ERROR` yields the
unknown-error message; otherwise the body is valid. -/
def validateMessage (errors : List (String × String)) (body : String) : Option String :=
  match lookupTable errors body with
  | some e =>
    if e ≠ "" then some e
    else if body = "" ∨ hasSubstr "ERROR".toList body.toList then
      some ("Unknown 2Captcha error: " ++ body)
    else none
  | none =>
    if body = "" ∨ hasSubstr "ERROR".toList body.toList then
      some ("Unknown 2Captcha error: " ++ body)
    else none

/-- `TwoCaptchaClient._validateResponse`: returns `true` on a valid
body; otherwise hands the message to `_throwError` and returns `false`
(when `_throwError` itself returns). -/
def validateResponse (errors : List (String × String)) (throwErrors : Bool)
    (body : String) : Except String (List String × Bool) :=
  match validateMessage errors body with
  | none => .ok ([], true)
  | some m =>
    match throwErrorM throwErrors m with
    | .error e => .error e
    | .ok (ws, _) => .ok (ws, false)

/-- The JavaScript idiom `res.split('|', 2)[1]` (by destructuring):
the second pipe-delimited field, or `undefined` when the response has
no `|`.  The limit 2 only truncates the array, so element 1 agrees with
element 1 of the full split. -/
def jsSplit2get1 (s : String) : Option String :=
  ((splitOnChar '|' s.toList).get? 1).map fun l => String.mk l

/-- The captcha object built by `TwoCaptchaClient.captcha` from the poll
response body `res` (src/TwoCaptchaClient.ts, lines 54-67): `id` from
the argument, `apiResponse` the raw body, `text` the second
pipe-delimited field of the body (possibly `undefined`). -/
def captchaResult (captchaId : Option String) (res : String) : Captcha :=
  { id := captchaId, text := jsSplit2get1 res, apiResponse := res }

/-- The captcha object returned by `TwoCaptchaClient._upload` from the
upload response body `res` (src/TwoCaptchaClient.ts, lines 365-369):
a fresh captcha whose `id` is set to the second pipe-delimited field of
`res`; `text` is still the constructor's `''`. -/
def uploadResult (res : String) : Captcha :=
  { Captcha.new with id := jsSplit2get1 res }

/-- One call of `TwoCaptchaClient.captcha` inside the poll loop: the
response body passes through `_validateResponse` (inside `_request`,
which ignores the returned boolean but propagates a throw and the
warnings), then the captcha object is built from the body. -/
def captchaStep (errors : List (String × String)) (throwErrors : Bool)
    (captchaId : Option String) (res : String) :
    Except String (List String × Captcha) :=
  match validateResponse errors throwErrors res with
  | .error e => .error e
  | .ok (ws, _) => .ok (ws, captchaResult captchaId res)

/-- Bookkeeping for one executed iteration of a poll loop: the elapsed
time when the iteration started, the argument given to `_sleep`, the
elapsed time at the deadline check (made right after the sleep), and
the outcome of the comparison `Date.now() - startedAt > this.timeout`. -/
structure IterRec where
  elapsedBefore : Nat
  sleepMs : Nat
  elapsedAtCheck : Nat
  deadlineHit : Bool
deriving DecidableEq

/-- Result of a poll loop run that did not throw: the returned captcha,
the warnings logged along the way, the per-iteration records, and
whether the loop exited through the timeout branch. -/
structure PollOutcome where
  captcha : Captcha
  warnings : List String
  recs : List IterRec
  timedOut : Bool
deriving DecidableEq

/-- The shared poll loop of `decode`, `decodeRecaptchaV2`,
`decodeRecaptchaV3` and `decodeHCaptcha` (they differ only in the sleep
amount): while `decodedCaptcha.text === ''`, sleep `sleepAmt`
milliseconds, then compare the elapsed time against `timeout` (strictly
greater), and on timeout call `_throwError 'Captcha timeout'` and
return the current captcha, else fetch the next poll response through
`TwoCaptchaClient.captcha`.  Time is modelled as advancing by exactly
the slept amount; `responses i` is the body of the i-th poll response.
`none` means the fuel ran out before the loop finished. -/
def pollLoop (errors : List (String × String)) (throwErrors : Bool)
    (timeout sleepAmt : Nat) (responses : Nat → String) :
    Nat → Nat → Nat → Captcha → Option (Except String PollOutcome)
  | 0, _, _, _ => none
  | fuel + 1, i, elapsed, cap =>
    if cap.text = some "" then
      if timeout < elapsed + sleepAmt then
        match throwErrorM throwErrors "Captcha timeout" with
        | .error e => some (.error e)
        | .ok (ws, _) =>
          some (.ok { captcha := cap, warnings := ws
                      recs := [{ elapsedBefore := elapsed, sleepMs := sleepAmt
                                 elapsedAtCheck := elapsed + sleepAmt
                                 deadlineHit := decide (timeout < elapsed + sleepAmt) }]
                      timedOut := true })
      else
        match captchaStep errors throwErrors cap.id (responses i) with
        | .error e => some (.error e)
        | .ok (ws, cap') =>
          match pollLoop errors throwErrors timeout sleepAmt responses fuel (i + 1)
              (elapsed + sleepAmt) cap' with
          | none => none
          | some (.error e) => some (.error e)
          | some (.ok out) =>
            some (.ok { captcha := out.captcha, warnings := ws ++ out.warnings
                        recs := { elapsedBefore := elapsed, sleepMs := sleepAmt
                                  elapsedAtCheck := elapsed + sleepAmt
                                  deadlineHit := decide (timeout < elapsed + sleepAmt) } :: out.recs
                        timedOut := out.timedOut })
    else some (.ok { captcha := cap, warnings := [], recs := [], timedOut := false })

/-- The poll loop of `decode` (src/TwoCaptchaClient.ts, lines 91-98):
sleeps exactly `polling` milliseconds per iteration. -/
def decodePollRun (errors : List (String × String)) (c : TwoCaptchaClient)
    (responses : Nat → String) (cap0 : Captcha) (fuel : Nat) :
    Option (Except String PollOutcome) :=
  pollLoop errors c.throwErrors c.timeout c.polling responses fuel 0 0 cap0

/-- The poll loop of `decodeRecaptchaV2` (lines 139-146): sleeps
`Math.max(polling, 10000)` milliseconds per iteration. -/
def decodeRecaptchaV2PollRun (errors : List (String × String)) (c : TwoCaptchaClient)
    (responses : Nat → String) (cap0 : Captcha) (fuel : Nat) :
    Option (Except String PollOutcome) :=
  pollLoop errors c.throwErrors c.timeout (max c.polling 10000) responses fuel 0 0 cap0

/-- The poll loop of `decodeRecaptchaV3` (lines 189-196): sleeps
`Math.max(polling, 10000)` milliseconds per iteration. -/
def decodeRecaptchaV3PollRun (errors : List (String × String)) (c : TwoCaptchaClient)
    (responses : Nat → String) (cap0 : Captcha) (fuel : Nat) :
    Option (Except String PollOutcome) :=
  pollLoop errors c.throwErrors c.timeout (max c.polling 10000) responses fuel 0 0 cap0

/-- The poll loop of `decodeHCaptcha` (lines 234-241): sleeps
`Math.max(polling, 10000)` milliseconds per iteration. -/
def decodeHCaptchaPollRun (errors : List (String × String)) (c : TwoCaptchaClient)
    (responses : Nat → String) (cap0 : Captcha) (fuel : Nat) :
    Option (Except String PollOutcome) :=
  pollLoop errors c.throwErrors c.timeout (max c.polling 10000) responses fuel 0 0 cap0

/-- The literal messages the client hands to `_throwError` at its direct
call sites (constructor line 33, decode line 84, googlekey/pageurl/
sitekey checks at lines 118-120, 166-168, 215-217, `_loadCaptcha` line
395, and the poll-loop timeout at lines 94, 142, 192, 237). -/
def clientErrorMessages : List String :=
  ["2Captcha key must be a string", "Missing googlekey parameter",
   "Missing pageurl parameter", "Missing sitekey parameter",
   "No image data received", "Captcha timeout"]

/-- The C5 claim's reading of `indexes`: the maximal digit runs of the
text after removing one LEADING `click:` prefix (the text is left
unchanged when it does not start with `click:`), each converted to a
number. -/
def c5ClaimIndexes (text : String) : List Nat :=
  (digitRunsSpec
    (if "click:".toList.isPrefixOf text.toList
     then text.toList.drop "click:".toList.length
     else text.toList)).map digitsToNat

/-- Modelled from the spec: one entry of the static error-code table
(`constants.errors`, whose module is not among the provided sources; the
spec calls it "a static error-code table" mapping response bodies to
messages).  The not-yet-solved code is mapped to exactly the message
that `_throwError` special-cases (src/TwoCaptchaClient.ts line 330
quotes this message verbatim), which is how a pending poll response
avoids raising. -/
def ctable : List (String × String) :=
  [("CAPCHA_NOT_READY", notSolvedMsg)]

/-- Decidable equality for `Except` results, used to evaluate run
results of the embedded client on concrete inputs. -/
instance {ε α : Type _} [DecidableEq ε] [DecidableEq α] : DecidableEq (Except ε α) :=
  fun x y =>
    match x, y with
    | .error a, .error b =>
      if h : a = b then .isTrue (by rw [h])
      else .isFalse (by intro hc; injection hc; contradiction)
    | .error _, .ok _ => .isFalse (by intro hc; exact Except.noConfusion hc)
    | .ok _, .error _ => .isFalse (by intro hc; exact Except.noConfusion hc)
    | .ok a, .ok b =>
      if h : a = b then .isTrue (by rw [h])
      else .isFalse (by intro hc; injection hc; contradiction)

/-- The outcome of a two-iteration `decode` poll run against a client
with a 7000 ms timeout whose poll responses keep the text field empty:
one in-time iteration, then a timeout surfaced as a warning.  Used to
exercise the C6 theorem on a concrete run. -/
def c6OutExample : PollOutcome :=
  { captcha := { id := some "123", text := some "", apiResponse := "OK|" }
    warnings := ["Captcha timeout"], timedOut := true
    recs := [{ elapsedBefore := 0, sleepMs := 5000, elapsedAtCheck := 5000
               deadlineHit := false },
             { elapsedBefore := 5000, sleepMs := 5000, elapsedAtCheck := 10000
               deadlineHit := true }] }

theorem munchDigits_eq_append : ∀ l : List Char, l = (munchDigits l).1 ++ (munchDigits l).2 := by
  intro l
  induction l with
  | nil => rfl
  | cons c cs ih =>
    by_cases hc : c.isDigit
    · simp only [munchDigits, if_pos hc, List.cons_append]
      exact congrArg (c :: ·) ih
    · simp only [munchDigits, if_neg hc, List.nil_append]

theorem munchDigits_snd_length (l : List Char) : (munchDigits l).2.length ≤ l.length := by
  have h := congrArg List.length (munchDigits_eq_append l)
  rw [List.length_append] at h
  omega

theorem munchDigits_fst_digits : ∀ l : List Char, ∀ c ∈ (munchDigits l).1, c.isDigit := by
  intro l
  induction l with
  | nil => intro c hc; simp [munchDigits] at hc
  | cons d cs ih =>
    by_cases hd : d.isDigit
    · simp only [munchDigits, if_pos hd]
      intro c hc
      rcases List.mem_cons.mp hc with rfl | hc
      · exact hd
      · exact ih c hc
    · simp only [munchDigits, if_neg hd]
      intro c hc
      simp at hc

theorem munchDigits_of_digits {ds : List Char} (h : ∀ c ∈ ds, c.isDigit) :
    munchDigits ds = (ds, []) := by
  induction ds with
  | nil => rfl
  | cons d ds' ih =>
    have hd : d.isDigit := h d (List.mem_cons_self d ds')
    have ih' := ih fun c hc => h c (List.mem_cons_of_mem d hc)
    simp only [munchDigits, if_pos hd, ih']

theorem munchDigits_append_stop {ds : List Char} (h : ∀ c ∈ ds, c.isDigit)
    {c : Char} {r : List Char} (hc : ¬c.isDigit) :
    munchDigits (ds ++ c :: r) = (ds, c :: r) := by
  induction ds with
  | nil => simp only [List.nil_append, munchDigits, if_neg hc]
  | cons d ds' ih =>
    have hd : d.isDigit := h d (List.mem_cons_self d ds')
    have ih' := ih fun x hx => h x (List.mem_cons_of_mem d hx)
    show munchDigits (d :: (ds' ++ c :: r)) = (d :: ds', c :: r)
    simp only [munchDigits, if_pos hd]
    rw [ih']

theorem expectChar_eq_some {c : Char} {l r : List Char} :
    expectChar c l = some r ↔ l = c :: r := by
  cases l with
  | nil => simp [expectChar]
  | cons d rest =>
    by_cases h : d = c
    · subst h; simp [expectChar]
    · simp [expectChar, h]

theorem optBind_eq_some {α β : Type _} {x : Option α} {f : α → Option β} {b : β}
    (h : x >>= f = some b) : ∃ a, x = some a ∧ f a = some b := by
  cases x with
  | none => exact absurd h (by simp)
  | some a => exact ⟨a, rfl, h⟩

theorem tryCoordAt_eq_some {l ds es rest : List Char}
    (h : tryCoordAt l = some (ds, es, rest)) :
    ds ≠ [] ∧ es ≠ [] ∧ (∀ c ∈ ds, c.isDigit) ∧ (∀ c ∈ es, c.isDigit)
      ∧ rest.length + 7 ≤ l.length := by
  unfold tryCoordAt at h
  obtain ⟨r1, h1, h⟩ := optBind_eq_some h
  obtain ⟨r2, h2, h⟩ := optBind_eq_some h
  rcases hm1 : munchDigits r2 with ⟨ds', r3⟩
  rw [hm1] at h
  dsimp only at h
  by_cases hds : ds' = []
  · rw [if_pos hds] at h; exact absurd h (by simp)
  rw [if_neg hds] at h
  obtain ⟨r4, h4, h⟩ := optBind_eq_some h
  obtain ⟨r5, h5, h⟩ := optBind_eq_some h
  obtain ⟨r6, h6, h⟩ := optBind_eq_some h
  rcases hm2 : munchDigits r6 with ⟨es', r7⟩
  rw [hm2] at h
  dsimp only at h
  by_cases hes : es' = []
  · rw [if_pos hes] at h; exact absurd h (by simp)
  rw [if_neg hes] at h
  have h' : (ds', es', r7) = (ds, es, rest) := Option.some.inj h
  have hde : ds' = ds := congrArg (fun t => t.1) h'
  have hee : es' = es := congrArg (fun t => t.2.1) h'
  have hre : r7 = rest := congrArg (fun t => t.2.2) h'
  rw [← hde, ← hee, ← hre]
  have hl1 : l = 'x' :: r1 := expectChar_eq_some.mp h1
  have hl2 : r1 = '=' :: r2 := expectChar_eq_some.mp h2
  have hl3 : r2 = ds' ++ r3 := by
    have hx := munchDigits_eq_append r2; rw [hm1] at hx; exact hx
  have hl4 : r3 = ',' :: r4 := expectChar_eq_some.mp h4
  have hl5 : r4 = 'y' :: r5 := expectChar_eq_some.mp h5
  have hl6 : r5 = '=' :: r6 := expectChar_eq_some.mp h6
  have hl7 : r6 = es' ++ r7 := by
    have hx := munchDigits_eq_append r6; rw [hm2] at hx; exact hx
  have hdd : ∀ c ∈ ds', c.isDigit := by
    have hx := munchDigits_fst_digits r2; rw [hm1] at hx; exact hx
  have hed : ∀ c ∈ es', c.isDigit := by
    have hx := munchDigits_fst_digits r6; rw [hm2] at hx; exact hx
  refine ⟨hds, hes, hdd, hed, ?_⟩
  have lds : 1 ≤ ds'.length := List.length_pos.mpr hds
  have les : 1 ≤ es'.length := List.length_pos.mpr hes
  have e1 : l.length = r1.length + 1 := by rw [hl1]; rfl
  have e2 : r1.length = r2.length + 1 := by rw [hl2]; rfl
  have e3 : r2.length = ds'.length + r3.length := by rw [hl3, List.length_append]
  have e4 : r3.length = r4.length + 1 := by rw [hl4]; rfl
  have e5 : r4.length = r5.length + 1 := by rw [hl5]; rfl
  have e6 : r5.length = r6.length + 1 := by rw [hl6]; rfl
  have e7 : r6.length = es'.length + r7.length := by rw [hl7, List.length_append]
  omega

theorem coordinateParser_match {ds es : List Char} (hds : ds ≠ []) (hes : es ≠ [])
    (hd : ∀ c ∈ ds, c.isDigit) (he : ∀ c ∈ es, c.isDigit) :
    coordinateParser ('x' :: '=' :: (ds ++ ',' :: 'y' :: '=' :: es))
      = [digitsToNat ds, digitsToNat es] := by
  have hm1 : munchDigits (ds ++ ',' :: 'y' :: '=' :: es) = (ds, ',' :: 'y' :: '=' :: es) :=
    munchDigits_append_stop hd (by decide)
  have hm2 : munchDigits es = (es, []) := munchDigits_of_digits he
  have htc : tryCoordAt ('x' :: '=' :: (ds ++ ',' :: 'y' :: '=' :: es)) = some (ds, es, []) := by
    simp [tryCoordAt, expectChar, hm1, hm2, hds, hes]
  have hex : execCoordAux ('x' :: '=' :: (ds ++ ',' :: 'y' :: '=' :: es)).length
      ('x' :: '=' :: (ds ++ ',' :: 'y' :: '=' :: es)) = some (ds, es) := by
    simp only [List.length_cons, execCoordAux, htc]
  unfold coordinateParser
  rw [hex]

theorem coords_scan_equiv : ∀ n l, (jsMatchCoordsGAux n l).map coordinateParser
    = (coordOccurrencesAux n l).map (fun p => [p.1, p.2]) := by
  intro n
  induction n with
  | zero => intro l; simp [jsMatchCoordsGAux, coordOccurrencesAux]
  | succ m ih =>
    intro l
    cases l with
    | nil => simp [jsMatchCoordsGAux, coordOccurrencesAux]
    | cons c cs =>
      cases htc : tryCoordAt (c :: cs) with
      | none =>
        simp only [jsMatchCoordsGAux, coordOccurrencesAux, htc]
        exact ih cs
      | some t =>
        obtain ⟨ds, es, rest⟩ := t
        obtain ⟨hds, hes, hd, he, _⟩ := tryCoordAt_eq_some htc
        simp only [jsMatchCoordsGAux, coordOccurrencesAux, htc, List.map_cons]
        rw [coordinateParser_match hds hes hd he, ih rest]

theorem digitRuns_cons_digit {c : Char} (hc : c.isDigit) (cs : List Char) :
    digitRunsSpec (c :: cs) = (c :: (munchDigits cs).1) :: digitRunsSpec (munchDigits cs).2 := by
  induction cs generalizing c with
  | nil => simp [digitRunsSpec, munchDigits, hc]
  | cons d cs' ih =>
    by_cases hd : d.isDigit
    · have ihd := ih hd
      simp only [digitRunsSpec, if_pos hc, if_pos hd]
      rw [ihd]
      simp only [munchDigits, if_pos hd]
    · simp only [digitRunsSpec, if_pos hc, if_neg hd]
      simp only [munchDigits, if_neg hd]

theorem digitRuns_cons_not_digit {c : Char} (hc : ¬c.isDigit) (cs : List Char) :
    digitRunsSpec (c :: cs) = digitRunsSpec cs := by
  cases cs with
  | nil => simp [digitRunsSpec, hc]
  | cons d cs' => simp [digitRunsSpec, hc]

theorem digit_scan_equiv : ∀ n l, l.length ≤ n → jsMatchDigitsGAux n l = digitRunsSpec l := by
  intro n
  induction n with
  | zero =>
    intro l hl
    have : l = [] := List.length_eq_zero.mp (Nat.le_zero.mp hl)
    subst this; rfl
  | succ m ih =>
    intro l hl
    cases l with
    | nil => rfl
    | cons c cs =>
      have hcs : cs.length ≤ m := by
        simp only [List.length_cons] at hl; omega
      by_cases hc : c.isDigit
      · simp only [jsMatchDigitsGAux, if_pos hc]
        rw [digitRuns_cons_digit hc]
        have hcs2 : (munchDigits cs).2.length ≤ m :=
          le_trans (munchDigits_snd_length cs) hcs
        rw [ih (munchDigits cs).2 hcs2]
      · simp only [jsMatchDigitsGAux, if_neg hc]
        rw [ih cs hcs, digitRuns_cons_not_digit hc]

theorem lookupTable_mem {errors : List (String × String)} {body v : String}
    (h : lookupTable errors body = some v) : (body, v) ∈ errors := by
  induction errors with
  | nil => simp [lookupTable] at h
  | cons p rest ih =>
    obtain ⟨k, w⟩ := p
    rw [lookupTable] at h
    by_cases hb : body = k
    · rw [if_pos hb] at h
      have : w = v := Option.some.inj h
      subst this; subst hb
      exact List.mem_cons_self _ _
    · rw [if_neg hb] at h
      exact List.mem_cons_of_mem _ (ih h)

theorem throwErrorM_of_ne {m : String} (te : Bool) (h : m ≠ notSolvedMsg) :
    throwErrorM te m = if te then .error m else .ok ([m], false) := by
  unfold throwErrorM
  rw [if_neg h]

theorem unknown_msg_ne_notSolved (b : String) :
    "Unknown 2Captcha error: " ++ b ≠ notSolvedMsg := by
  intro h
  have hd : ("Unknown 2Captcha error: " ++ b).data = notSolvedMsg.data :=
    congrArg String.data h
  have hd' : 'U' :: ("nknown 2Captcha error: ".data ++ b.data) = notSolvedMsg.data := hd
  have h0 : some 'U' = some 'Y' := congrArg List.head? hd'
  exact absurd (Option.some.inj h0) (by decide)

theorem splitOnChar_not_mem {sep : Char} {l : List Char} (h : sep ∉ l) :
    splitOnChar sep l = [l] := by
  induction l with
  | nil => rfl
  | cons c cs ih =>
    have hc : ¬(c = sep) := fun e => h (e ▸ List.mem_cons_self c cs)
    have ih' := ih fun hm => h (List.mem_cons_of_mem c hm)
    rw [splitOnChar, if_neg hc, ih']

theorem pollLoop_recs_shape (errors : List (String × String)) (te : Bool)
    (timeout sleepAmt : Nat) (responses : Nat → String) :
    ∀ fuel i elapsed cap out,
      pollLoop errors te timeout sleepAmt responses fuel i elapsed cap = some (.ok out) →
      ∀ r ∈ out.recs, r.sleepMs = sleepAmt
        ∧ r.elapsedAtCheck = r.elapsedBefore + r.sleepMs
        ∧ r.deadlineHit = decide (timeout < r.elapsedAtCheck) := by
  intro fuel
  induction fuel with
  | zero =>
    intro i elapsed cap out h
    simp [pollLoop] at h
  | succ n ih =>
    intro i elapsed cap out h
    rw [pollLoop] at h
    by_cases hg : cap.text = some ""
    · rw [if_pos hg] at h
      by_cases ht : timeout < elapsed + sleepAmt
      · rw [if_pos ht] at h
        cases hte : throwErrorM te "Captcha timeout" with
        | error e => rw [hte] at h; exact absurd (Option.some.inj h) (by intro hc; cases hc)
        | ok p =>
          obtain ⟨ws, b⟩ := p
          rw [hte] at h
          have hout := Except.ok.inj (Option.some.inj h)
          subst hout
          intro r hr
          have : r = { elapsedBefore := elapsed, sleepMs := sleepAmt
                       elapsedAtCheck := elapsed + sleepAmt
                       deadlineHit := decide (timeout < elapsed + sleepAmt) } := by
            simpa using hr
          subst this
          exact ⟨rfl, rfl, rfl⟩
      · rw [if_neg ht] at h
        cases hcs : captchaStep errors te cap.id (responses i) with
        | error e => rw [hcs] at h; exact absurd (Option.some.inj h) (by intro hc; cases hc)
        | ok p =>
          obtain ⟨ws, cap'⟩ := p
          rw [hcs] at h
          dsimp only at h
          cases hrec : pollLoop errors te timeout sleepAmt responses n (i + 1)
              (elapsed + sleepAmt) cap' with
          | none => rw [hrec] at h; exact absurd h (by simp)
          | some ex =>
            cases ex with
            | error e =>
              rw [hrec] at h; exact absurd (Option.some.inj h) (by intro hc; cases hc)
            | ok out' =>
              rw [hrec] at h
              have hout := Except.ok.inj (Option.some.inj h)
              subst hout
              intro r hr
              simp only [List.mem_cons] at hr
              rcases hr with rfl | hr
              · exact ⟨rfl, rfl, rfl⟩
              · exact ih (i + 1) (elapsed + sleepAmt) cap' out' hrec r hr
    · rw [if_neg hg] at h
      have hout := Except.ok.inj (Option.some.inj h)
      subst hout
      intro r hr
      simp at hr

/-- C1: the spec's invariant says a captcha's text stays `""` exactly
until the service reports it solved.  The code breaks it: for the
not-yet-ready poll response body `CAPCHA_NOT_READY` (which has no `|`),
`TwoCaptchaClient.captcha` assigns `res.split('|', 2)[1]`, which is
`undefined` (`none`), not `""` — so the poll guard `text === ''` fails
even though the captcha is unsolved.  For contrast, a solved response
`OK|sol` does produce the non-empty text `sol`, and a fresh captcha
starts at `""`. -/
theorem c1_not_ready_text_undefined :
    (captchaResult (some "123") "CAPCHA_NOT_READY").text = none
    ∧ (captchaResult (some "123") "CAPCHA_NOT_READY").text ≠ some ""
    ∧ (captchaResult (some "123") "OK|sol").text = some "sol"
    ∧ Captcha.new.text = some "" :=
  ⟨rfl, by decide, rfl, rfl⟩

/-- C2 counterexample: `CAPCHA_NOT_READY` is a key of the error-code
table (mapped to the message `_throwError` special-cases), so by the
claim its message should be surfaced through the configured error mode
(thrown when `throwErrors` is true, logged when false).  The code does
neither: in both modes `_validateResponse` returns `false` with no
throw and no warning. -/
theorem c2_counterexample :
    lookupTable ctable "CAPCHA_NOT_READY" = some notSolvedMsg
    ∧ validateResponse ctable true "CAPCHA_NOT_READY" = .ok ([], false)
    ∧ validateResponse ctable false "CAPCHA_NOT_READY" = .ok ([], false)
    ∧ (Except.ok (([] : List String), false) : Except String (List String × Bool))
        ≠ .error notSolvedMsg
    ∧ (Except.ok (([] : List String), false) : Except String (List String × Bool))
        ≠ .ok ([notSolvedMsg], false) :=
  ⟨rfl, rfl, rfl, by decide, by decide⟩

/-- C2 (amended): for a table whose messages are all non-empty,
`_validateResponse` returns `true` exactly when the body is not a key
of the table, is non-empty, and does not contain `ERROR`.  In every
other case it computes the message (the table's, else the unknown-error
message), returns `false`, and surfaces the message through the
configured error mode — except when the message is exactly
`Your captcha is not solved yet.`, which is neither thrown nor logged. -/
theorem c2_validateResponse_amended (errors : List (String × String)) (te : Bool)
    (body : String) (hne : ∀ p ∈ errors, p.2 ≠ "") :
    (validateResponse errors te body = .ok ([], true)
      ↔ (lookupTable errors body = none ∧ body ≠ ""
          ∧ hasSubstr "ERROR".toList body.toList = false))
    ∧ (∀ m, validateMessage errors body = some m →
        (lookupTable errors body = some m ∨ m = "Unknown 2Captcha error: " ++ body)
        ∧ (m ≠ notSolvedMsg →
            validateResponse errors te body = if te then .error m else .ok ([m], false))
        ∧ (m = notSolvedMsg → validateResponse errors te body = .ok ([], false))) := by
  constructor
  · constructor
    · intro hok
      cases hvm0 : validateMessage errors body with
      | some m =>
        unfold validateResponse at hok
        rw [hvm0] at hok
        dsimp only at hok
        cases hte : throwErrorM te m with
        | error e =>
          rw [hte] at hok
          exact Except.noConfusion hok
        | ok p =>
          obtain ⟨ws, b⟩ := p
          rw [hte] at hok
          dsimp only at hok
          have hpq := Except.ok.inj hok
          have hb2 : (false : Bool) = true := congrArg Prod.snd hpq
          exact absurd hb2 (by decide)
      | none =>
        unfold validateMessage at hvm0
        cases hl : lookupTable errors body with
        | some e =>
          rw [hl] at hvm0
          dsimp only at hvm0
          have he : e ≠ "" := hne (body, e) (lookupTable_mem hl)
          rw [if_pos he] at hvm0
          exact Option.noConfusion hvm0
        | none =>
          rw [hl] at hvm0
          dsimp only at hvm0
          by_cases hcond : body = "" ∨ hasSubstr "ERROR".toList body.toList
          · rw [if_pos hcond] at hvm0
            exact Option.noConfusion hvm0
          · push_neg at hcond
            exact ⟨rfl, hcond.1, by simpa using hcond.2⟩
    · rintro ⟨hl, hb, hs⟩
      have hcond : ¬(body = "" ∨ hasSubstr "ERROR".toList body.toList = true) := by
        rw [hs]; simp [hb]
      unfold validateResponse validateMessage
      rw [hl]
      dsimp only
      rw [if_neg hcond]
  · intro m hm
    have hwhich : lookupTable errors body = some m
        ∨ m = "Unknown 2Captcha error: " ++ body := by
      unfold validateMessage at hm
      cases hl : lookupTable errors body with
      | none =>
        rw [hl] at hm
        dsimp only at hm
        by_cases hcond : body = "" ∨ hasSubstr "ERROR".toList body.toList
        · rw [if_pos hcond] at hm
          exact Or.inr (Option.some.inj hm).symm
        · rw [if_neg hcond] at hm
          exact Option.noConfusion hm
      | some e =>
        rw [hl] at hm
        dsimp only at hm
        have he : e ≠ "" := hne (body, e) (lookupTable_mem hl)
        rw [if_pos he] at hm
        exact Or.inl hm
    refine ⟨hwhich, ?_, ?_⟩
    · intro hnm
      unfold validateResponse
      rw [hm]
      dsimp only
      rw [throwErrorM_of_ne te hnm]
      cases te <;> rfl
    · intro heq
      subst heq
      unfold validateResponse
      rw [hm]
      rfl

/-- C2 witness: the amended theorem applied to the modelled table, the
throwing mode, and a clean body, whose validation succeeds. -/
theorem c2_validateResponse_amended_witness :
    (∀ p ∈ ctable, p.2 ≠ "")
    ∧ (validateResponse ctable true "OK|abc" = .ok ([], true)
        ↔ (lookupTable ctable "OK|abc" = none ∧ "OK|abc" ≠ ""
            ∧ hasSubstr "ERROR".toList "OK|abc".toList = false)) :=
  ⟨by decide, (c2_validateResponse_amended ctable true "OK|abc" (by decide)).1⟩

/-- C3: the claim says the poll loop of `decode` keeps polling until the
text is a non-empty solved string or the deadline passes (then
surfacing `Captcha timeout`).  The code does neither on the standard
not-yet-ready response: with every poll response `CAPCHA_NOT_READY`, a
default client (timeout 60000) stops after a single poll — 5000 ms
elapsed, deadline not hit, no timeout surfaced, no warning — and
returns the unsolved captcha whose text is `undefined`, not a
non-empty string. -/
theorem c3_decode_stops_polling_without_timeout :
    decodePollRun [] (TwoCaptchaClient.make "apikey" {}) (fun _ => "CAPCHA_NOT_READY")
        (uploadResult "OK|123") 50
      = some (.ok { captcha := { id := some "123", text := none
                                 apiResponse := "CAPCHA_NOT_READY" }
                    warnings := [], timedOut := false
                    recs := [{ elapsedBefore := 0, sleepMs := 5000
                               elapsedAtCheck := 5000, deadlineHit := false }] })
    ∧ (TwoCaptchaClient.make "apikey" {}).timeout = 60000
    ∧ (none : Option String) ≠ some "" :=
  ⟨rfl, rfl, by decide⟩

/-- C4: `coordinates` returns one `[x, y]` pair per occurrence of
`x=<digits>,y=<digits>` in the text, in order of occurrence, with the
two digit groups converted to numbers (and `[]` when there is no
occurrence): the source's re-parse of each globally matched substring
agrees with the direct occurrence list. -/
theorem c4_coordinates_spec (text : String) :
    Captcha.coordinates text = (coordOccurrences text).map (fun p => [p.1, p.2]) :=
  coords_scan_equiv text.toList.length text.toList

/-- C5 counterexample: the claim reads `indexes` as stripping one
LEADING `click:` prefix, but `replace('click:', '')` removes the first
occurrence anywhere.  On the text `1click:2` the code merges the digit
runs into `12`, while the claim's reading keeps them apart as `1, 2`. -/
theorem c5_counterexample :
    Captcha.indexes "1click:2" = [12] ∧ c5ClaimIndexes "1click:2" = [1, 2]
    ∧ Captcha.indexes "1click:2" ≠ c5ClaimIndexes "1click:2" :=
  ⟨by decide, by decide, by decide⟩

/-- C5 (amended): `indexes` returns the maximal runs of decimal digits
of the text after removing the FIRST occurrence of `click:` (anywhere
in the text), each converted to a number, in order of occurrence; the
empty list when there are no digits. -/
theorem c5_indexes_amended (text : String) :
    Captcha.indexes text
      = (digitRunsSpec (replaceFirstOcc "click:".toList text.toList)).map digitsToNat := by
  unfold Captcha.indexes jsMatchDigitsG
  rw [digit_scan_equiv _ _ (le_refl _)]

/-- C6: in any successful poll-loop run, `decode` sleeps exactly the
configured polling interval each iteration, the ReCaptcha v2/v3 and
hCaptcha loops sleep `max(polling, 10000)`, and the deadline comparison
of every iteration is made on the elapsed time right after that
iteration's sleep. -/
theorem c6_sleep_amounts (errors : List (String × String)) (c : TwoCaptchaClient)
    (responses : Nat → String) (cap0 : Captcha) (fuel : Nat) (out : PollOutcome) :
    (decodePollRun errors c responses cap0 fuel = some (.ok out) →
      ∀ r ∈ out.recs, r.sleepMs = c.polling
        ∧ r.elapsedAtCheck = r.elapsedBefore + r.sleepMs
        ∧ r.deadlineHit = decide (c.timeout < r.elapsedAtCheck))
    ∧ (decodeRecaptchaV2PollRun errors c responses cap0 fuel = some (.ok out) →
      ∀ r ∈ out.recs, r.sleepMs = max c.polling 10000
        ∧ r.elapsedAtCheck = r.elapsedBefore + r.sleepMs
        ∧ r.deadlineHit = decide (c.timeout < r.elapsedAtCheck))
    ∧ (decodeRecaptchaV3PollRun errors c responses cap0 fuel = some (.ok out) →
      ∀ r ∈ out.recs, r.sleepMs = max c.polling 10000
        ∧ r.elapsedAtCheck = r.elapsedBefore + r.sleepMs
        ∧ r.deadlineHit = decide (c.timeout < r.elapsedAtCheck))
    ∧ (decodeHCaptchaPollRun errors c responses cap0 fuel = some (.ok out) →
      ∀ r ∈ out.recs, r.sleepMs = max c.polling 10000
        ∧ r.elapsedAtCheck = r.elapsedBefore + r.sleepMs
        ∧ r.deadlineHit = decide (c.timeout < r.elapsedAtCheck)) := by
  refine ⟨?_, ?_, ?_, ?_⟩ <;> intro h r hr
  · exact pollLoop_recs_shape errors c.throwErrors c.timeout c.polling responses
      fuel 0 0 cap0 out h r hr
  · exact pollLoop_recs_shape errors c.throwErrors c.timeout (max c.polling 10000) responses
      fuel 0 0 cap0 out h r hr
  · exact pollLoop_recs_shape errors c.throwErrors c.timeout (max c.polling 10000) responses
      fuel 0 0 cap0 out h r hr
  · exact pollLoop_recs_shape errors c.throwErrors c.timeout (max c.polling 10000) responses
      fuel 0 0 cap0 out h r hr

/-- C6 witness: a concrete two-iteration `decode` run (timeout 7000,
default polling 5000) exercising the first conjunct. -/
theorem c6_sleep_amounts_witness :
    decodePollRun [] (TwoCaptchaClient.make "k" { timeout := some 7000 }) (fun _ => "OK|")
        (uploadResult "OK|123") 50 = some (.ok c6OutExample)
    ∧ (∀ r ∈ c6OutExample.recs,
        r.sleepMs = (TwoCaptchaClient.make "k" { timeout := some 7000 }).polling
        ∧ r.elapsedAtCheck = r.elapsedBefore + r.sleepMs
        ∧ r.deadlineHit
            = decide ((TwoCaptchaClient.make "k" { timeout := some 7000 }).timeout
                < r.elapsedAtCheck)) :=
  ⟨rfl, (c6_sleep_amounts [] (TwoCaptchaClient.make "k" { timeout := some 7000 })
    (fun _ => "OK|") (uploadResult "OK|123") 50 c6OutExample).1 rfl⟩

/-- C7: a new `Captcha` has id, text and apiResponse all `""`; the
captcha `_upload` returns carries the second pipe-delimited field of
the upload response as its id while its text is still `""`; and the
text is filled in by the captcha lookup once polling succeeds (a solved
response `OK|<answer>` yields text `<answer>`). -/
theorem c7_incremental_population (res field : String)
    (h : jsSplit2get1 res = some field) :
    Captcha.new = { id := some "", text := some "", apiResponse := "" }
    ∧ (uploadResult res).id = some field
    ∧ (uploadResult res).text = some ""
    ∧ (uploadResult res).apiResponse = ""
    ∧ ∀ cid : Option String, ∀ ans : String, '|' ∉ ans.toList →
        (captchaResult cid ("OK|" ++ ans)).text = some ans := by
  refine ⟨rfl, h, rfl, rfl, ?_⟩
  intro cid ans hans
  show jsSplit2get1 ("OK|" ++ ans) = some ans
  unfold jsSplit2get1
  have h3 : ("OK|" ++ ans).toList = 'O' :: 'K' :: '|' :: ans.toList := rfl
  have h4 : splitOnChar '|' ans.data = [ans.data] := splitOnChar_not_mem hans
  rw [h3]
  simp [splitOnChar, h4]

/-- C7 witness: the theorem at the concrete upload response `OK|123`. -/
theorem c7_incremental_population_witness :
    jsSplit2get1 "OK|123" = some "123"
    ∧ (Captcha.new = { id := some "", text := some "", apiResponse := "" }
      ∧ (uploadResult "OK|123").id = some "123"
      ∧ (uploadResult "OK|123").text = some ""
      ∧ (uploadResult "OK|123").apiResponse = ""
      ∧ ∀ cid : Option String, ∀ ans : String, '|' ∉ ans.toList →
          (captchaResult cid ("OK|" ++ ans)).text = some ans) :=
  ⟨rfl, c7_incremental_population "OK|123" "123" rfl⟩

/-- C8 counterexample: the invalid-response-body condition for the
not-yet-ready body carries the table's message
`Your captcha is not solved yet.`, and for that detected condition the
claimed surfacing fails in both modes: `_throwError` neither throws an
Error carrying it (`throwErrors = true`) nor logs it as a warning
(`throwErrors = false`) — it just returns `false`. -/
theorem c8_counterexample :
    lookupTable ctable "CAPCHA_NOT_READY" = some notSolvedMsg
    ∧ throwErrorM true notSolvedMsg = .ok ([], false)
    ∧ throwErrorM true notSolvedMsg ≠ .error notSolvedMsg
    ∧ throwErrorM false notSolvedMsg = .ok ([], false)
    ∧ throwErrorM false notSolvedMsg ≠ .ok ([notSolvedMsg], false) :=
  ⟨rfl, rfl, by decide, rfl, by decide⟩

/-- C8 (amended): every error message the client detects is surfaced
according to the boolean error mode — thrown when `throwErrors` is
true, logged as a warning with a `false` return when `throwErrors` is
false — EXCEPT the single message `Your captcha is not solved yet.`,
on which `_throwError` returns `false` without throwing or logging in
either mode.  The literal call-site messages and the
unknown-response-body family are never that excepted message. -/
theorem c8_throwError_modes_amended (te : Bool) (m : String) :
    (m ≠ notSolvedMsg →
      throwErrorM te m = if te then .error m else .ok ([m], false))
    ∧ (m = notSolvedMsg → throwErrorM te m = .ok ([], false))
    ∧ ((m ∈ clientErrorMessages ∨ ∃ b, m = "Unknown 2Captcha error: " ++ b) →
      m ≠ notSolvedMsg) := by
  refine ⟨fun hnm => throwErrorM_of_ne te hnm, fun heq => ?_, fun hm => ?_⟩
  · subst heq; rfl
  · rcases hm with hm | ⟨b, rfl⟩
    · simp only [clientErrorMessages, List.mem_cons, List.mem_singleton] at hm
      rcases hm with rfl | rfl | rfl | rfl | rfl | hm
      · decide
      · decide
      · decide
      · decide
      · decide
      · simp only [List.mem_singleton, List.not_mem_nil, or_false] at hm
        subst hm; decide
    · exact unknown_msg_ne_notSolved b

/-- C8 witness: the poll-loop timeout message in throwing mode, via the
non-excepted branch of the amended theorem. -/
theorem c8_throwError_modes_amended_witness :
    ("Captcha timeout" ≠ notSolvedMsg)
    ∧ throwErrorM true "Captcha timeout"
        = if true then .error "Captcha timeout" else .ok (["Captcha timeout"], false) :=
  ⟨by decide, (c8_throwError_modes_amended true "Captcha timeout").1 (by decide)⟩

/-- C9: a client constructed without explicit configuration has a
timeout of 60000 ms and a polling interval of 5000 ms. -/
theorem c9_default_config (key : String) :
    (TwoCaptchaClient.make key {}).timeout = 60000
    ∧ (TwoCaptchaClient.make key {}).polling = 5000 :=
  ⟨rfl, rfl⟩

/-- C10: `_throwError` returns `false` for the exact message
`Your captcha is not solved yet.` without throwing and without logging,
in both error-surfacing modes. -/
theorem c10_not_solved_bypass :
    throwErrorM true notSolvedMsg = .ok ([], false)
    ∧ throwErrorM false notSolvedMsg = .ok ([], false) :=
  ⟨rfl, rfl⟩
